import Mathlib

/-!
Shallow embedding of src/demo_automation.py (xlwings stock-dashboard macro).

The script is a single linear procedure `main` operating on a workbook:
it reads a ticker from the named range TICKER, recreates the fixed-name
sheet "Stock Dashboard", fetches a 30-day OHLCV series and issuer info,
computes scalar metrics, writes a fixed-layout report, renders a chart
and shows alerts.  We embed the externally observable effects: the
workbook's sheet list, the cells/font colors/pictures written to the
dashboard sheet, the alerts shown, and which sheet the run activated.
Numeric cell values are modelled over the rationals; formatted strings
whose text interpolates a numeric value (the 30-day change text, the
average-volume text) are modelled by constructors carrying the numbers
they are formatted from.
-/

/-- One daily OHLCV record of the fetched series (a row of the pandas
frame returned by the history call, field names as in the source's
column labels). -/
structure Row where
  date : String
  Open : ℚ
  High : ℚ
  Low : ℚ
  Close : ℚ
  Volume : ℚ
deriving DecidableEq

/-- Issuer metadata as used by the script: the dict returned by the info
call, read with get and a default, so each field is optional. -/
structure IssuerInfo where
  longName : Option String
  sector : Option String
deriving DecidableEq

/-- A value written to a spreadsheet cell.  changeText c p stands for the
formatted string built from price_change c and price_change_pct p
(source line 86); volText m stands for the formatted mean-volume string
(line 100); table stands for the data frame written at D4 (line 113). -/
inductive CellValue where
  | str : String → CellValue
  | num : ℚ → CellValue
  | changeText : ℚ → ℚ → CellValue
  | volText : ℚ → CellValue
  | table : List Row → CellValue
deriving DecidableEq

/-- A worksheet: its name, the cells written to it (address, value), the
font colors set (address, RGB), and the names of embedded pictures. -/
structure Sheet where
  name : String
  cells : List (String × CellValue)
  fontColors : List (String × (ℕ × ℕ × ℕ))
  pictures : List String
deriving DecidableEq

/-- Value of a cell of a sheet, by address. -/
def Sheet.cellValue (s : Sheet) (addr : String) : Option CellValue :=
  s.cells.lookup addr

/-- Font color of a cell of a sheet, by address. -/
def Sheet.fontColor (s : Sheet) (addr : String) : Option (ℕ × ℕ × ℕ) :=
  s.fontColors.lookup addr

/-- The workbook: an ordered list of sheets (as in wb.sheets). -/
structure Workbook where
  sheets : List Sheet
deriving DecidableEq

/-- The alerts the script can show (app.alert calls), carrying the data
interpolated into their message text. -/
inductive AlertMsg where
  | missingTicker : AlertMsg
  | setupRequired : AlertMsg
  | invalidTicker : String → AlertMsg
  | success : String → ℚ → ℚ → ℚ → AlertMsg
deriving DecidableEq

/-- How a run of main ended: one constructor per early return plus the
successful fall-through. -/
inductive RunOutcome where
  | missingName
  | emptyTicker
  | invalidTicker
  | success
deriving DecidableEq

/-- Observable result of one run of main: the final workbook, the alerts
shown in order, the sheet name the run activated (if any), and how the
run ended. -/
structure RunResult where
  workbook : Workbook
  alerts : List AlertMsg
  activated : Option String
  outcome : RunOutcome
deriving DecidableEq

/-- The fixed report-sheet name (source line 29). -/
def dashboardName : String := "Stock Dashboard"

/-- wb.sheets[n].delete() wrapped in try/except pass (lines 30-33):
removes the sheet with the given name when present, does nothing
otherwise.  Excel keeps sheet names unique, so at most one sheet
matches; we remove the first match. -/
def deleteSheetByName (n : String) (ss : List Sheet) : List Sheet :=
  ss.eraseP (fun s => s.name == n)

/-- wb.sheets.add(name, after=wb.sheets[0]) (line 35): inserts the new
sheet immediately after the first sheet of the workbook. -/
def addAfterFirst (s : Sheet) (ss : List Sheet) : List Sheet :=
  ss.take 1 ++ [s] ++ ss.drop 1

/-- Series.max of a nonempty pandas series, as a fold over the list of
values (0 for the empty series, which the script never reaches). -/
def seriesMax : List ℚ → ℚ
  | [] => 0
  | x :: xs => xs.foldl max x

/-- Series.min of a nonempty pandas series, as a fold. -/
def seriesMin : List ℚ → ℚ
  | [] => 0
  | x :: xs => xs.foldl min x

/-- hist["Close"].iloc[0] (line 82-83): the first close of the series. -/
def firstClose (hist : List Row) : ℚ :=
  ((hist.head?).map Row.Close).getD 0

/-- hist["Close"].iloc[-1] (lines 75, 82): the last close of the series. -/
def lastClose (hist : List Row) : ℚ :=
  ((hist.getLast?).map Row.Close).getD 0

/-- price_change (line 82): last close minus first close. -/
def priceChange (hist : List Row) : ℚ :=
  lastClose hist - firstClose hist

/-- price_change_pct (line 83): price change divided by the first close,
times 100.  The source guards neither the division nor the series
length here. -/
def priceChangePct (hist : List Row) : ℚ :=
  priceChange hist / firstClose hist * 100

/-- hist["Volume"].mean() (line 100). -/
def meanVolume (hist : List Row) : ℚ :=
  (hist.map Row.Volume).sum / (hist.length : ℚ)

/-- Rounding to two decimals, modelling df_display.round(2) (line 110). -/
def round2 (x : ℚ) : ℚ :=
  (round (x * 100) : ℤ) / 100

/-- df_display (lines 108-110): the OHLCV columns of the series with the
index formatted as dates and all values rounded to two decimals. -/
def displayTable (hist : List Row) : List Row :=
  hist.map (fun r =>
    { date := r.date, Open := round2 r.Open, High := round2 r.High,
      Low := round2 r.Low, Close := round2 r.Close,
      Volume := round2 r.Volume })

/-- The bar colors of the volume chart (line 154): green when the day's
close is at least its open, red otherwise. -/
def volumeBarColors (hist : List Row) : List String :=
  hist.map (fun r => if r.Open ≤ r.Close then "green" else "red")

/-- The info dict built in the except branch of the metadata fetch
(line 54): uppercased ticker as longName, "N/A" as sector. -/
def fallbackInfo (ticker : String) : IssuerInfo :=
  { longName := some ticker.toUpper, sector := some "N/A" }

/-- The dashboard sheet as fully written by the success path of main
(lines 57-184): the header, the info block, the metrics block, the data
table, the font colors set along the way, and the embedded chart
picture.  now is the timestamp string written at A12. -/
def buildDashboard (ticker : String) (info : IssuerInfo) (hist : List Row)
    (now : String) : Sheet :=
  { name := dashboardName
  , cells :=
      [ ("A1", .str ("✅ Stock Analysis Dashboard - " ++ ticker.toUpper))
      , ("A3", .str "Ticker:")
      , ("B3", .str ticker.toUpper)
      , ("A4", .str "Company:")
      , ("B4", .str (info.longName.getD "N/A"))
      , ("A5", .str "Sector:")
      , ("B5", .str (info.sector.getD "N/A"))
      , ("A6", .str "Current Price:")
      , ("B6", .num (lastClose hist))
      , ("A7", .str "30-Day Change:")
      , ("B7", .changeText (priceChange hist) (priceChangePct hist))
      , ("A8", .str "30-Day High:")
      , ("B8", .num (seriesMax (hist.map Row.High)))
      , ("A9", .str "30-Day Low:")
      , ("B9", .num (seriesMin (hist.map Row.Low)))
      , ("A10", .str "Avg Volume:")
      , ("B10", .volText (meanVolume hist))
      , ("D3", .str "Historical Data (Last 30 Days)")
      , ("D4", .table (displayTable hist))
      , ("A12", .str ("Last updated: " ++ now)) ]
  , fontColors :=
      [ ("A1", (0, 102, 204))
      , ("B7", if 0 ≤ priceChange hist then (0, 128, 0) else (255, 0, 0))
      , ("D4:I4", (255, 255, 255))
      , ("A12", (128, 128, 128)) ]
  , pictures := ["stock_chart"] }

/-- The empty sheet as created by wb.sheets.add before anything is
written to it. -/
def freshSheet : Sheet :=
  { name := dashboardName, cells := [], fontColors := [], pictures := [] }

namespace demo_automation

/-- The main macro (def main, lines 8-190) as a function from its
external inputs to its observable result.
namedRangeExists models whether reading wb.names TICKER succeeds
(the except branch at line 21 fires when it does not); ticker is the
cell's value, with "" standing for an empty/falsy cell; hist is the
series returned by the history call; infoResult is some info when the
metadata fetch succeeds and none when it raises; now is the timestamp
string; wb is the workbook at entry.
In the empty-history branch, sheet.delete() (line 47) removes exactly
the sheet just inserted by addAfterFirst, i.e. the one at the length of
ss.take 1; we erase that index. -/
def main (namedRangeExists : Bool) (ticker : String) (hist : List Row)
    (infoResult : Option IssuerInfo) (now : String) (wb : Workbook) :
    RunResult :=
  if namedRangeExists = false then
    { workbook := wb, alerts := [.setupRequired], activated := none,
      outcome := .missingName }
  else if ticker = "" then
    { workbook := wb, alerts := [.missingTicker], activated := none,
      outcome := .emptyTicker }
  else
    let sheets1 := deleteSheetByName dashboardName wb.sheets
    if hist = [] then
      { workbook :=
          ⟨(addAfterFirst freshSheet sheets1).eraseIdx
            (sheets1.take 1).length⟩
      , alerts := [.invalidTicker ticker.toUpper]
      , activated := some dashboardName
      , outcome := .invalidTicker }
    else
      let info := infoResult.getD (fallbackInfo ticker)
      let dash := buildDashboard ticker info hist now
      { workbook := ⟨addAfterFirst dash sheets1⟩
      , alerts := [.success ticker.toUpper (lastClose hist)
          (priceChange hist) (priceChangePct hist)]
      , activated := some dashboardName
      , outcome := .success }

/-! Helper lemmas about the embedding, shared by the claim theorems. -/

/-- Unfolding of main on the success path: named range found, ticker
nonempty, history nonempty. -/
theorem main_success_eq (ticker now : String) (hist : List Row)
    (infoResult : Option IssuerInfo) (wb : Workbook)
    (ht : ticker ≠ "") (hh : hist ≠ []) :
    demo_automation.main true ticker hist infoResult now wb =
      { workbook := ⟨addAfterFirst
          (buildDashboard ticker (infoResult.getD (fallbackInfo ticker)) hist now)
          (deleteSheetByName dashboardName wb.sheets)⟩
      , alerts := [.success ticker.toUpper (lastClose hist)
          (priceChange hist) (priceChangePct hist)]
      , activated := some dashboardName
      , outcome := .success } := by
  simp [demo_automation.main, ht, hh]

/-- Unfolding of main on the empty-history path: named range found,
ticker nonempty, the fetch returned zero rows. -/
theorem main_empty_eq (ticker now : String)
    (infoResult : Option IssuerInfo) (wb : Workbook)
    (ht : ticker ≠ "") :
    demo_automation.main true ticker [] infoResult now wb =
      { workbook := ⟨(addAfterFirst freshSheet
            (deleteSheetByName dashboardName wb.sheets)).eraseIdx
          ((deleteSheetByName dashboardName wb.sheets).take 1).length⟩
      , alerts := [.invalidTicker ticker.toUpper]
      , activated := some dashboardName
      , outcome := .invalidTicker } := by
  simp [demo_automation.main, ht]

/-- Deleting the inserted sheet right after inserting it restores the
sheet list, whatever its shape. -/
theorem eraseIdx_addAfterFirst (s : Sheet) (ss : List Sheet) :
    (addAfterFirst s ss).eraseIdx (ss.take 1).length = ss := by
  cases ss with
  | nil => rfl
  | cons a t => rfl

/-- If at most one element of a list satisfies p, then none is left
after erasing the first match. -/
theorem eraseP_no_match {α : Type} {p : α → Bool} :
    ∀ (l : List α), l.countP p ≤ 1 → ∀ a ∈ l.eraseP p, p a = false := by
  intro l
  induction l with
  | nil => intro _ a ha; simp at ha
  | cons h t ih =>
    intro hc a ha
    by_cases hp : p h = true
    · rw [List.eraseP_cons_of_pos hp] at ha
      rw [List.countP_cons_of_pos _ _ hp] at hc
      have ht0 : t.countP p = 0 := by omega
      have := List.countP_eq_zero.mp ht0 a ha
      simpa using this
    · rw [List.eraseP_cons_of_neg hp] at ha
      rw [List.countP_cons_of_neg _ _ hp] at hc
      rcases List.mem_cons.mp ha with rfl | hmem
      · simpa using hp
      · exact ih hc a hmem

/-- Deleting the dashboard sheet from a list obtained by inserting a
dashboard-named sheet into a dashboard-free list gives back that list. -/
theorem delete_addAfterFirst (dash : Sheet) (s1 : List Sheet)
    (hdash : (dash.name == dashboardName) = true)
    (hs1 : ∀ a ∈ s1, (a.name == dashboardName) = false) :
    deleteSheetByName dashboardName (addAfterFirst dash s1) = s1 := by
  have hs1p : ∀ a ∈ s1, a.name ≠ dashboardName := fun a ha => by
    simpa using hs1 a ha
  unfold deleteSheetByName addAfterFirst
  rw [List.append_assoc, List.eraseP_append_right]
  · rw [List.singleton_append]
    have he : List.eraseP (fun s => s.name == dashboardName)
        (dash :: List.drop 1 s1) = List.drop 1 s1 :=
      List.eraseP_cons_of_pos hdash
    rw [he]
    exact List.take_append_drop 1 s1
  · intro b hb
    simp [hs1p b (List.mem_of_mem_take hb)]

/-- Inserting a dashboard-named sheet into a dashboard-free list gives
exactly one dashboard-named sheet. -/
theorem countP_addAfterFirst (dash : Sheet) (s1 : List Sheet)
    (hdash : (dash.name == dashboardName) = true)
    (hs1 : ∀ a ∈ s1, (a.name == dashboardName) = false) :
    (addAfterFirst dash s1).countP (fun s => s.name == dashboardName) = 1 := by
  unfold addAfterFirst
  have h1 : (s1.take 1).countP (fun s => s.name == dashboardName) = 0 :=
    List.countP_eq_zero.mpr (fun a ha => by
      simp [show a.name ≠ dashboardName from by
        simpa using hs1 a (List.mem_of_mem_take ha)])
  have h2 : (s1.drop 1).countP (fun s => s.name == dashboardName) = 0 :=
    List.countP_eq_zero.mpr (fun a ha => by
      simp [show a.name ≠ dashboardName from by
        simpa using hs1 a (List.mem_of_mem_drop ha)])
  have h3 : List.countP (fun s : Sheet => s.name == dashboardName) [dash] = 1 := by
    simp [List.countP_cons, hdash]
  rw [List.countP_append, List.countP_append, h1, h2, h3]

/-- Erasing the first match of p does not change the sublist of
elements not satisfying p. -/
theorem filter_not_eraseP {α : Type} (p : α → Bool) :
    ∀ l : List α, (l.eraseP p).filter (fun a => !p a) = l.filter (fun a => !p a) := by
  intro l
  induction l with
  | nil => rfl
  | cons h t ih =>
    by_cases hp : p h = true
    · rw [List.eraseP_cons_of_pos hp, List.filter_cons]
      simp [hp]
    · rw [List.eraseP_cons_of_neg hp, List.filter_cons, List.filter_cons]
      simp only [ih]

/-- The seed of a max-fold is below its result. -/
theorem le_foldl_max_init : ∀ (t : List ℚ) (a : ℚ), a ≤ t.foldl max a := by
  intro t
  induction t with
  | nil => intro a; exact le_refl a
  | cons x xs ih =>
    intro a
    exact le_trans (le_max_left a x) (ih (max a x))

/-- Every list element is below the result of a max-fold. -/
theorem mem_le_foldl_max : ∀ (t : List ℚ) (a x : ℚ), x ∈ t → x ≤ t.foldl max a := by
  intro t
  induction t with
  | nil => intro a x hx; simp at hx
  | cons y ys ih =>
    intro a x hx
    rcases List.mem_cons.mp hx with rfl | hmem
    · exact le_trans (le_max_right a x) (le_foldl_max_init ys (max a x))
    · exact ih (max a y) x hmem

/-- The result of a max-fold is the seed or a list element. -/
theorem foldl_max_mem : ∀ (t : List ℚ) (a : ℚ), t.foldl max a = a ∨ t.foldl max a ∈ t := by
  intro t
  induction t with
  | nil => intro a; left; rfl
  | cons x xs ih =>
    intro a
    rw [List.foldl_cons]
    rcases ih (max a x) with h | h
    · rcases max_choice a x with hm | hm
      · left; rw [h, hm]
      · right; rw [h, hm]; exact List.mem_cons_self x xs
    · right; exact List.mem_cons_of_mem x h

/-- seriesMax of a nonempty list is one of its elements. -/
theorem seriesMax_mem (xs : List ℚ) (h : xs ≠ []) : seriesMax xs ∈ xs := by
  match xs with
  | [] => exact absurd rfl h
  | x :: t =>
    rw [seriesMax]
    rcases foldl_max_mem t x with h1 | h1
    · rw [h1]; exact List.mem_cons_self x t
    · exact List.mem_cons_of_mem x h1

/-- seriesMax bounds every element of the list from above. -/
theorem le_seriesMax (xs : List ℚ) (x : ℚ) (hx : x ∈ xs) : x ≤ seriesMax xs := by
  match xs with
  | [] => simp at hx
  | y :: t =>
    rw [seriesMax]
    rcases List.mem_cons.mp hx with rfl | hmem
    · exact le_foldl_max_init t x
    · exact mem_le_foldl_max t y x hmem

/-- The seed of a min-fold is above its result. -/
theorem foldl_min_init_le : ∀ (t : List ℚ) (a : ℚ), t.foldl min a ≤ a := by
  intro t
  induction t with
  | nil => intro a; exact le_refl a
  | cons x xs ih =>
    intro a
    exact le_trans (ih (min a x)) (min_le_left a x)

/-- The result of a min-fold is below every list element. -/
theorem foldl_min_le_mem : ∀ (t : List ℚ) (a x : ℚ), x ∈ t → t.foldl min a ≤ x := by
  intro t
  induction t with
  | nil => intro a x hx; simp at hx
  | cons y ys ih =>
    intro a x hx
    rcases List.mem_cons.mp hx with rfl | hmem
    · exact le_trans (foldl_min_init_le ys (min a x)) (min_le_right a x)
    · exact ih (min a y) x hmem

/-- The result of a min-fold is the seed or a list element. -/
theorem foldl_min_mem : ∀ (t : List ℚ) (a : ℚ), t.foldl min a = a ∨ t.foldl min a ∈ t := by
  intro t
  induction t with
  | nil => intro a; left; rfl
  | cons x xs ih =>
    intro a
    rw [List.foldl_cons]
    rcases ih (min a x) with h | h
    · rcases min_choice a x with hm | hm
      · left; rw [h, hm]
      · right; rw [h, hm]; exact List.mem_cons_self x xs
    · right; exact List.mem_cons_of_mem x h

/-- seriesMin of a nonempty list is one of its elements. -/
theorem seriesMin_mem (xs : List ℚ) (h : xs ≠ []) : seriesMin xs ∈ xs := by
  match xs with
  | [] => exact absurd rfl h
  | x :: t =>
    rw [seriesMin]
    rcases foldl_min_mem t x with h1 | h1
    · rw [h1]; exact List.mem_cons_self x t
    · exact List.mem_cons_of_mem x h1

/-- seriesMin bounds every element of the list from below. -/
theorem seriesMin_le (xs : List ℚ) (x : ℚ) (hx : x ∈ xs) : seriesMin xs ≤ x := by
  match xs with
  | [] => simp at hx
  | y :: t =>
    rw [seriesMin]
    rcases List.mem_cons.mp hx with rfl | hmem
    · exact foldl_min_init_le t x
    · exact foldl_min_le_mem t y x hmem

/-! Example data used by the concrete witnesses below. -/

/-- A small concrete two-day series. -/
def histEx : List Row :=
  [ { date := "2024-01-02", Open := 10, High := 12, Low := 9, Close := 11,
      Volume := 1000 }
  , { date := "2024-01-03", Open := 11, High := 15, Low := 8, Close := 14,
      Volume := 2000 } ]

/-- A concrete workbook holding a single input sheet. -/
def wbEx : Workbook :=
  ⟨[{ name := "Sheet1", cells := [], fontColors := [], pictures := [] }]⟩

/-- A concrete one-day series whose first close is 0. -/
def histZero : List Row :=
  [ { date := "2024-01-02", Open := 1, High := 1, Low := 0, Close := 0,
      Volume := 5 } ]

/-- A concrete workbook already containing an input sheet and an old
dashboard sheet. -/
def wbWithDash : Workbook :=
  ⟨[ { name := "Sheet1", cells := [], fontColors := [], pictures := [] }
   , { name := "Stock Dashboard", cells := [("A1", .str "old")],
       fontColors := [], pictures := [] } ]⟩

/-! Claim theorems. -/

/-- C1 counterexample: the claim quantifies over every starting
document, including one that already contains a sheet named
"Stock Dashboard".  On such a document a zero-row run does not leave
the sheet set unchanged: the pre-existing dashboard sheet is deleted at
the start of the run and the replacement sheet is deleted again on the
invalid-ticker path, so "Stock Dashboard" is in the pre-run sheet set
but not in the post-run one. -/
theorem c1_pre_state_counterexample :
    ("Stock Dashboard" ∈
      (Workbook.mk
        [ { name := "Sheet1", cells := [], fontColors := [], pictures := [] }
        , { name := "Stock Dashboard", cells := [], fontColors := [],
            pictures := [] } ]).sheets.map Sheet.name) ∧
    "Stock Dashboard" ∉
      ((demo_automation.main true "ZZZ" [] none "t"
        (Workbook.mk
          [ { name := "Sheet1", cells := [], fontColors := [], pictures := [] }
          , { name := "Stock Dashboard", cells := [], fontColors := [],
              pictures := [] } ])).workbook.sheets.map Sheet.name) := by
  decide

/-- C1 (amended): if the fetch returns zero rows, the run shows the
invalid-ticker alert and deletes the just-created report sheet; for
every starting document that does not already contain a sheet named
"Stock Dashboard", the workbook after the run equals the workbook
before it.  (A pre-existing dashboard sheet, by contrast, is deleted
and not restored.) -/
theorem c1_zero_rows_restores_pre_run_state (wb : Workbook)
    (ticker now : String) (infoResult : Option IssuerInfo)
    (ht : ticker ≠ "")
    (hpre : ∀ s ∈ wb.sheets, s.name ≠ dashboardName) :
    (demo_automation.main true ticker [] infoResult now wb).workbook = wb ∧
    (demo_automation.main true ticker [] infoResult now wb).alerts =
      [.invalidTicker ticker.toUpper] := by
  rw [main_empty_eq ticker now infoResult wb ht]
  refine ⟨?_, rfl⟩
  have h1 : deleteSheetByName dashboardName wb.sheets = wb.sheets :=
    List.eraseP_of_forall_not (fun a ha => by simp [hpre a ha])
  show Workbook.mk _ = wb
  rw [h1, eraseIdx_addAfterFirst]

/-- C1 amended-claim witness at concrete inputs. -/
theorem c1_zero_rows_restores_pre_run_state_witness :
    (demo_automation.main true "ZZZ" [] none "t" wbEx).workbook = wbEx ∧
    (demo_automation.main true "ZZZ" [] none "t" wbEx).alerts =
      [.invalidTicker ("ZZZ".toUpper)] :=
  c1_zero_rows_restores_pre_run_state wbEx "ZZZ" "t" none (by decide)
    (by decide)

/-- C3: for a nonempty series whose first close is nonzero, the change
cell B7 carries exactly the absolute change, last close minus first
close, and the percent change, that difference divided by the first
close times 100. -/
theorem c3_percent_change_formula (ticker now : String)
    (info : IssuerInfo) (hist : List Row)
    (h : hist ≠ []) (_h0 : (hist.head h).Close ≠ 0) :
    (buildDashboard ticker info hist now).cellValue "B7" =
      some (.changeText
        ((hist.getLast h).Close - (hist.head h).Close)
        (((hist.getLast h).Close - (hist.head h).Close)
          / (hist.head h).Close * 100)) := by
  have hb7 : (buildDashboard ticker info hist now).cellValue "B7" =
      some (.changeText (priceChange hist) (priceChangePct hist)) := rfl
  rw [hb7]
  unfold priceChangePct priceChange lastClose firstClose
  rw [List.getLast?_eq_getLast hist h, List.head?_eq_head h]
  rfl

/-- C3 witness at a concrete two-day series. -/
theorem c3_percent_change_formula_witness :
    (buildDashboard "aapl" ⟨some "Apple Inc.", some "Technology"⟩ histEx
      "t").cellValue "B7" =
      some (.changeText
        ((histEx.getLast (by decide)).Close - (histEx.head (by decide)).Close)
        (((histEx.getLast (by decide)).Close - (histEx.head (by decide)).Close)
          / (histEx.head (by decide)).Close * 100)) :=
  c3_percent_change_formula "aapl" "t" ⟨some "Apple Inc.", some "Technology"⟩
    histEx (by decide) (by decide)

/-- C4: when the named range is missing or the ticker cell is empty,
the run aborts with a single modal alert, activates nothing, and leaves
the workbook exactly as it was: no sheet is deleted, created or
modified. -/
theorem c4_invalid_input_leaves_workbook_unchanged (namedRangeExists : Bool)
    (ticker now : String) (hist : List Row)
    (infoResult : Option IssuerInfo) (wb : Workbook)
    (h : namedRangeExists = false ∨ ticker = "") :
    (demo_automation.main namedRangeExists ticker hist infoResult now
      wb).workbook = wb ∧
    (demo_automation.main namedRangeExists ticker hist infoResult now
      wb).activated = none ∧
    (demo_automation.main namedRangeExists ticker hist infoResult now
      wb).alerts =
      [if namedRangeExists = false then .setupRequired else .missingTicker] := by
  rcases h with h | h
  · subst h
    simp [demo_automation.main]
  · subst h
    cases namedRangeExists <;> simp [demo_automation.main]

/-- C4 witness at concrete inputs: missing named range. -/
theorem c4_invalid_input_leaves_workbook_unchanged_witness :
    (demo_automation.main false "AAPL" [] none "t" wbEx).workbook = wbEx ∧
    (demo_automation.main false "AAPL" [] none "t" wbEx).activated = none ∧
    (demo_automation.main false "AAPL" [] none "t" wbEx).alerts =
      [if false = false then .setupRequired else .missingTicker] :=
  c4_invalid_input_leaves_workbook_unchanged false "AAPL" "t" [] none wbEx
    (Or.inl rfl)

/-- C6: the font color of the 30-day-change cell B7 is the positive
green (0,128,0) exactly when the computed price change is at least 0,
and the negative red (255,0,0) otherwise; in particular a change of
exactly 0 gets the positive color, since the source compares with
price_change >= 0. -/
theorem c6_change_cell_color (ticker now : String) (info : IssuerInfo)
    (hist : List Row) :
    (buildDashboard ticker info hist now).fontColor "B7" =
      some (if 0 ≤ priceChange hist then (0, 128, 0) else (255, 0, 0)) :=
  rfl

/-- C10: in the volume chart the bar of day i is green exactly when
that day's close is at least its open (source: green if c >= o else
red), so the boundary case close = open is green. -/
theorem c10_volume_bar_direction_colors (hist : List Row) (i : ℕ)
    (hi : i < hist.length) :
    (volumeBarColors hist)[i]? =
      some (if hist[i].Open ≤ hist[i].Close then "green" else "red") := by
  unfold volumeBarColors
  rw [List.getElem?_map, List.getElem?_eq_getElem hi]
  rfl

/-- C10 witness at a one-day series with close equal to open: the
boundary is colored green. -/
theorem c10_volume_bar_direction_colors_witness :
    (volumeBarColors
      [{ date := "2024-01-02", Open := 7, High := 9, Low := 5, Close := 7,
         Volume := 100 }])[0]? =
      some (if (7 : ℚ) ≤ 7 then "green" else "red") :=
  c10_volume_bar_direction_colors
    [{ date := "2024-01-02", Open := 7, High := 9, Low := 5, Close := 7,
       Volume := 100 }] 0 (by decide)

/-- C2: with the same inputs (same ticker, same fetched rows, same
metadata and timestamp), running the macro a second time reproduces the
first run's result exactly: the whole run result — workbook, alerts,
activation, outcome — is unchanged, the workbook holds exactly one
sheet named "Stock Dashboard", and the dashboard sheet embeds the
single picture "stock_chart" (no duplicates). -/
theorem c2_rerun_idempotent (wb : Workbook) (ticker now : String)
    (hist : List Row) (infoResult : Option IssuerInfo)
    (ht : ticker ≠ "") (hh : hist ≠ [])
    (hd : wb.sheets.countP (fun s => s.name == dashboardName) ≤ 1) :
    demo_automation.main true ticker hist infoResult now
        (demo_automation.main true ticker hist infoResult now wb).workbook
      = demo_automation.main true ticker hist infoResult now wb ∧
    (demo_automation.main true ticker hist infoResult now
        wb).workbook.sheets.countP (fun s => s.name == dashboardName) = 1 ∧
    (buildDashboard ticker (infoResult.getD (fallbackInfo ticker)) hist
      now).pictures = ["stock_chart"] := by
  have hs1 : ∀ a ∈ (deleteSheetByName dashboardName wb.sheets),
      (a.name == dashboardName) = false :=
    eraseP_no_match wb.sheets hd
  have hdash : ((buildDashboard ticker (infoResult.getD (fallbackInfo ticker))
      hist now).name == dashboardName) = true := by rfl
  rw [main_success_eq ticker now hist infoResult wb ht hh]
  refine ⟨?_, ?_, rfl⟩
  · rw [main_success_eq ticker now hist infoResult _ ht hh]
    have hdel : deleteSheetByName dashboardName
        (addAfterFirst (buildDashboard ticker
          (infoResult.getD (fallbackInfo ticker)) hist now)
          (deleteSheetByName dashboardName wb.sheets))
        = deleteSheetByName dashboardName wb.sheets :=
      delete_addAfterFirst _ _ hdash hs1
    simp only [hdel]
  · exact countP_addAfterFirst _ _ hdash hs1

/-- C2 witness at concrete inputs. -/
theorem c2_rerun_idempotent_witness :
    demo_automation.main true "msft" histEx none "t"
        (demo_automation.main true "msft" histEx none "t" wbEx).workbook
      = demo_automation.main true "msft" histEx none "t" wbEx ∧
    (demo_automation.main true "msft" histEx none "t"
        wbEx).workbook.sheets.countP (fun s => s.name == dashboardName) = 1 ∧
    (buildDashboard "msft" ((none : Option IssuerInfo).getD
      (fallbackInfo "msft")) histEx "t").pictures = ["stock_chart"] :=
  c2_rerun_idempotent wbEx "msft" "t" histEx none (by decide) (by decide)
    (by decide)

/-- C5: for a nonempty series, cell B8 holds the max-fold of the High
column and cell B9 the min-fold of the Low column, and these folds are
respectively a member of and an upper bound for exactly the fetched
High values, and a member of and a lower bound for exactly the fetched
Low values. -/
theorem c5_window_high_low (ticker now : String) (info : IssuerInfo)
    (hist : List Row) (h : hist ≠ []) :
    (buildDashboard ticker info hist now).cellValue "B8" =
      some (.num (seriesMax (hist.map Row.High))) ∧
    seriesMax (hist.map Row.High) ∈ hist.map Row.High ∧
    (∀ x ∈ hist.map Row.High, x ≤ seriesMax (hist.map Row.High)) ∧
    (buildDashboard ticker info hist now).cellValue "B9" =
      some (.num (seriesMin (hist.map Row.Low))) ∧
    seriesMin (hist.map Row.Low) ∈ hist.map Row.Low ∧
    (∀ x ∈ hist.map Row.Low, seriesMin (hist.map Row.Low) ≤ x) := by
  have hmapH : hist.map Row.High ≠ [] := fun hc => h (by simpa using hc)
  have hmapL : hist.map Row.Low ≠ [] := fun hc => h (by simpa using hc)
  exact ⟨rfl, seriesMax_mem _ hmapH, fun x hx => le_seriesMax _ x hx, rfl,
    seriesMin_mem _ hmapL, fun x hx => seriesMin_le _ x hx⟩

/-- C5 witness at a concrete two-day series. -/
theorem c5_window_high_low_witness :
    (buildDashboard "aapl" ⟨none, none⟩ histEx "t").cellValue "B8" =
      some (.num (seriesMax (histEx.map Row.High))) ∧
    seriesMax (histEx.map Row.High) ∈ histEx.map Row.High ∧
    (∀ x ∈ histEx.map Row.High, x ≤ seriesMax (histEx.map Row.High)) ∧
    (buildDashboard "aapl" ⟨none, none⟩ histEx "t").cellValue "B9" =
      some (.num (seriesMin (histEx.map Row.Low))) ∧
    seriesMin (histEx.map Row.Low) ∈ histEx.map Row.Low ∧
    (∀ x ∈ histEx.map Row.Low, seriesMin (histEx.map Row.Low) ≤ x) :=
  c5_window_high_low "aapl" "t" ⟨none, none⟩ histEx (by decide)

/-- C7: the percent-change division is unguarded: any nonempty series
reaches it, whatever its first close; in particular a series whose
first close is 0 still runs through to success, with the percent change
computed as a division by 0 (over ℚ the embedding evaluates that
division to 0; the source's float division by zero is the error branch
the claim points at). -/
theorem c7_unguarded_division_by_first_close (wb : Workbook)
    (ticker now : String) (hist : List Row)
    (infoResult : Option IssuerInfo)
    (ht : ticker ≠ "") (hh : hist ≠ []) (h0 : firstClose hist = 0) :
    (demo_automation.main true ticker hist infoResult now wb).outcome =
      .success ∧
    (demo_automation.main true ticker hist infoResult now wb).alerts =
      [.success ticker.toUpper (lastClose hist) (priceChange hist)
        (priceChange hist / 0 * 100)] := by
  rw [main_success_eq ticker now hist infoResult wb ht hh]
  refine ⟨rfl, ?_⟩
  simp [priceChangePct, h0]

/-- C7 witness: a one-day series with first close 0 reaches the
division and the run succeeds. -/
theorem c7_unguarded_division_by_first_close_witness :
    (demo_automation.main true "xyz" histZero none "t" wbEx).outcome =
      .success ∧
    (demo_automation.main true "xyz" histZero none "t" wbEx).alerts =
      [.success ("xyz".toUpper) (lastClose histZero) (priceChange histZero)
        (priceChange histZero / 0 * 100)] :=
  c7_unguarded_division_by_first_close wbEx "xyz" "t" histZero none
    (by decide) (by decide) (by decide)

/-- C8: when the issuer-metadata fetch fails, the run still succeeds
with only the success alert (no extra alert), the dashboard is built
from the fallback info, so the company cell B4 holds the uppercased
ticker and the sector cell B5 holds "N/A", and every other part of the
report — every cell at another address, all font colors, all pictures —
is what it would have been with any successfully fetched metadata. -/
theorem c8_metadata_failure_swallowed (wb : Workbook)
    (ticker now : String) (hist : List Row)
    (ht : ticker ≠ "") (hh : hist ≠ []) :
    (demo_automation.main true ticker hist none now wb).outcome =
      .success ∧
    (demo_automation.main true ticker hist none now wb).alerts =
      [.success ticker.toUpper (lastClose hist) (priceChange hist)
        (priceChangePct hist)] ∧
    (demo_automation.main true ticker hist none now wb).workbook.sheets =
      addAfterFirst (buildDashboard ticker (fallbackInfo ticker) hist now)
        (deleteSheetByName dashboardName wb.sheets) ∧
    (buildDashboard ticker (fallbackInfo ticker) hist now).cellValue "B4" =
      some (.str ticker.toUpper) ∧
    (buildDashboard ticker (fallbackInfo ticker) hist now).cellValue "B5" =
      some (.str "N/A") ∧
    (∀ i : IssuerInfo, ∀ addr : String, addr ≠ "B4" → addr ≠ "B5" →
      (buildDashboard ticker (fallbackInfo ticker) hist now).cellValue addr =
        (buildDashboard ticker i hist now).cellValue addr) ∧
    (∀ i : IssuerInfo,
      (buildDashboard ticker (fallbackInfo ticker) hist now).fontColors =
          (buildDashboard ticker i hist now).fontColors ∧
        (buildDashboard ticker (fallbackInfo ticker) hist now).pictures =
          (buildDashboard ticker i hist now).pictures) := by
  rw [main_success_eq ticker now hist none wb ht hh]
  refine ⟨rfl, rfl, rfl, rfl, rfl, ?_, fun i => ⟨rfl, rfl⟩⟩
  intro i addr h4 h5
  have h4b : (addr == "B4") = false := beq_eq_false_iff_ne.mpr h4
  have h5b : (addr == "B5") = false := beq_eq_false_iff_ne.mpr h5
  simp [Sheet.cellValue, buildDashboard, List.lookup, h4b, h5b]

/-- C8 witness at concrete inputs. -/
theorem c8_metadata_failure_swallowed_witness :
    (demo_automation.main true "msft" histEx none "t" wbEx).outcome =
      .success ∧
    (demo_automation.main true "msft" histEx none "t" wbEx).alerts =
      [.success ("msft".toUpper) (lastClose histEx) (priceChange histEx)
        (priceChangePct histEx)] ∧
    (demo_automation.main true "msft" histEx none "t" wbEx).workbook.sheets =
      addAfterFirst (buildDashboard "msft" (fallbackInfo "msft") histEx "t")
        (deleteSheetByName dashboardName wbEx.sheets) ∧
    (buildDashboard "msft" (fallbackInfo "msft") histEx "t").cellValue "B4" =
      some (.str ("msft".toUpper)) ∧
    (buildDashboard "msft" (fallbackInfo "msft") histEx "t").cellValue "B5" =
      some (.str "N/A") ∧
    (∀ i : IssuerInfo, ∀ addr : String, addr ≠ "B4" → addr ≠ "B5" →
      (buildDashboard "msft" (fallbackInfo "msft") histEx "t").cellValue addr =
        (buildDashboard "msft" i histEx "t").cellValue addr) ∧
    (∀ i : IssuerInfo,
      (buildDashboard "msft" (fallbackInfo "msft") histEx "t").fontColors =
          (buildDashboard "msft" i histEx "t").fontColors ∧
        (buildDashboard "msft" (fallbackInfo "msft") histEx "t").pictures =
          (buildDashboard "msft" i histEx "t").pictures) :=
  c8_metadata_failure_swallowed wbEx "msft" "t" histEx (by decide) (by decide)

/-- C9: on every run that passes input validation (named range found,
nonempty ticker) and fetches a nonempty series, the macro deletes any
pre-existing dashboard sheet (silently succeeding when none exists),
creates the fresh dashboard immediately after the first sheet — it sits
at index 1 and is the only sheet with the dashboard name — activates
it, and leaves all other sheets untouched. -/
theorem c9_recreates_dashboard_sheet (wb : Workbook) (ticker now : String)
    (hist : List Row) (infoResult : Option IssuerInfo)
    (ht : ticker ≠ "") (hh : hist ≠ [])
    (hd : wb.sheets.countP (fun s => s.name == dashboardName) ≤ 1)
    (hne : deleteSheetByName dashboardName wb.sheets ≠ []) :
    (demo_automation.main true ticker hist infoResult now wb).activated =
      some dashboardName ∧
    (demo_automation.main true ticker hist infoResult now
        wb).workbook.sheets[1]? =
      some (buildDashboard ticker (infoResult.getD (fallbackInfo ticker))
        hist now) ∧
    (∀ s ∈ (demo_automation.main true ticker hist infoResult now
        wb).workbook.sheets, s.name = dashboardName →
      s = buildDashboard ticker (infoResult.getD (fallbackInfo ticker))
        hist now) ∧
    (demo_automation.main true ticker hist infoResult now
        wb).workbook.sheets.filter (fun s => !(s.name == dashboardName)) =
      wb.sheets.filter (fun s => !(s.name == dashboardName)) := by
  have hs1 : ∀ a ∈ (deleteSheetByName dashboardName wb.sheets),
      (a.name == dashboardName) = false :=
    eraseP_no_match wb.sheets hd
  rw [main_success_eq ticker now hist infoResult wb ht hh]
  obtain ⟨a, t, hat⟩ := List.exists_cons_of_ne_nil hne
  refine ⟨rfl, ?_, ?_, ?_⟩
  · show (addAfterFirst _ (deleteSheetByName dashboardName wb.sheets))[1]? = _
    rw [hat]
    simp [addAfterFirst]
  · intro s hs hname
    rcases List.mem_append.mp hs with hs2 | hs2
    · rcases List.mem_append.mp hs2 with hs3 | hs3
      · exfalso
        have := hs1 s (List.mem_of_mem_take hs3)
        simp [hname] at this
      · simpa using hs3
    · exfalso
      have := hs1 s (List.mem_of_mem_drop hs2)
      simp [hname] at this
  · show (addAfterFirst _ (deleteSheetByName dashboardName wb.sheets)).filter
      _ = _
    unfold addAfterFirst
    rw [List.filter_append, List.filter_append]
    have hdashf : List.filter (fun s => !(s.name == dashboardName))
        [buildDashboard ticker (infoResult.getD (fallbackInfo ticker))
          hist now] = [] := by
      simp [buildDashboard]
    rw [hdashf, List.append_nil, ← List.filter_append,
      List.take_append_drop]
    exact filter_not_eraseP _ wb.sheets

/-- C9 witness at concrete inputs (a workbook already containing an old
dashboard sheet). -/
theorem c9_recreates_dashboard_sheet_witness :
    (demo_automation.main true "msft" histEx none "t" wbWithDash).activated =
      some dashboardName ∧
    (demo_automation.main true "msft" histEx none "t"
        wbWithDash).workbook.sheets[1]? =
      some (buildDashboard "msft" ((none : Option IssuerInfo).getD
        (fallbackInfo "msft")) histEx "t") ∧
    (∀ s ∈ (demo_automation.main true "msft" histEx none "t"
        wbWithDash).workbook.sheets,
      s.name = dashboardName →
      s = buildDashboard "msft" ((none : Option IssuerInfo).getD
        (fallbackInfo "msft")) histEx "t") ∧
    (demo_automation.main true "msft" histEx none "t"
        wbWithDash).workbook.sheets.filter
        (fun s => !(s.name == dashboardName)) =
      wbWithDash.sheets.filter (fun s => !(s.name == dashboardName)) :=
  c9_recreates_dashboard_sheet wbWithDash "msft" "t" histEx none
    (by decide) (by decide) (by decide) (by decide)

end demo_automation

